import Mathlib

/-!
Shallow embedding of the crypto ETL ingestion/orchestration core of the
repository (src/ingestion/coingecko.py, coinpaprika.py, csv_source.py,
orchestrator.py, src/schemas/models.py, src/core/database.py).

Modelling conventions:
* Python floats are modelled as rationals.  The wall clock is modelled as a
  function from a call counter to rational seconds: every call of
  datetime.utcnow() / time.time() consumes one tick, in source order.
* The SQLAlchemy session is modelled as an in-memory database value; db.add
  appends, db.commit is a no-op (commits never fail in the model), and
  mutation of a fetched ORM object is modelled as replacing it in place.
* Raw JSON entities from CoinGecko are modelled as a record of optional,
  well-typed fields (the shape of the documented upstream payload).  CSV rows
  are association lists of cells; a cell is a number, a non-numeric text
  (float() on it raises, as in the source's try/except), or a NaN.
-/

namespace Etl

/-- Wall clock: a time function over call indices plus the next call index.
Each utcnow()/time.time() call in the Python source consumes one tick. -/
structure Clk where
  f : Nat → ℚ
  i : Nat

/-- One clock read: returns the current time and advances the call index. -/
def Clk.now (c : Clk) : ℚ × Clk := (c.f c.i, ⟨c.f, c.i + 1⟩)

/-- Row of the crypto_prices table (core/database.py CryptoPrice). -/
structure CryptoPrice where
  coin_id : String
  symbol : String
  name : String
  price_usd : Option ℚ
  market_cap : Option ℚ
  volume_24h : Option ℚ
  price_change_24h : Option ℚ
  timestamp : ℚ
  source : String
deriving DecidableEq

/-- Row of the raw_crypto_data table (core/database.py RawCryptoData); the
serialized json payload is kept as the entity value itself (opaque). -/
structure RawRecord (α : Type) where
  source : String
  coin_id : String
  data : α
  ingested_at : ℚ
deriving DecidableEq

/-- Row of the etl_checkpoints table (core/database.py ETLCheckpoint). -/
structure Checkpoint where
  source : String
  last_processed_id : String
  last_processed_timestamp : Option ℚ
  records_processed : Nat
  last_run_start : Option ℚ
  last_run_end : Option ℚ
  last_run_status : String
  last_error : Option String
  updated_at : Option ℚ
deriving DecidableEq

/-- Row of the etl_run_metadata table (core/database.py ETLRunMetadata). -/
structure RunMetadata where
  run_id : String
  source : String
  start_time : ℚ
  end_time : Option ℚ
  status : String
  records_processed : Nat
  records_failed : Nat
  duration_seconds : Option ℚ
  error_message : Option String
deriving DecidableEq

/-- The four tables touched by the ingestion core. -/
structure DB (α : Type) where
  raw_crypto_data : List (RawRecord α)
  crypto_prices : List CryptoPrice
  checkpoints : List Checkpoint
  run_metadata : List RunMetadata
deriving DecidableEq

/-- The dict returned by a successful ingest() (coingecko.py lines 193-199). -/
structure RunResult where
  run_id : String
  status : String
  records_processed : Nat
  records_failed : Nat
  duration_seconds : ℚ
deriving DecidableEq

/-- Pydantic validator CryptoPriceBase.validate_numeric (schemas/models.py
lines 18-23): an out-of-range value is replaced by None, otherwise the value
is returned unchanged. -/
def validate_numeric (v : Option ℚ) : Option ℚ :=
  match v with
  | some x => if x < 0 ∨ x > 10 ^ 15 then none else some x
  | none => none

/-- Pydantic model CryptoPriceBase (schemas/models.py): numeric fields pass
through validate_numeric at construction; the record itself is always
accepted. -/
structure CryptoPriceBase where
  coin_id : String
  symbol : String
  name : Option String
  price_usd : Option ℚ
  market_cap : Option ℚ
  volume_24h : Option ℚ
  price_change_24h : Option ℚ
  source : String
deriving DecidableEq

/-- Construction of a CryptoPriceBase from raw attribute values, applying the
validator to each of the four numeric fields independently (pydantic runs
validate_numeric on price_usd, market_cap, volume_24h, price_change_24h). -/
def CryptoPriceBase.from_attrs (coin_id symbol : String) (name : Option String)
    (price_usd market_cap volume_24h price_change_24h : Option ℚ)
    (source : String) : CryptoPriceBase :=
  { coin_id := coin_id
    symbol := symbol
    name := name
    price_usd := validate_numeric price_usd
    market_cap := validate_numeric market_cap
    volume_24h := validate_numeric volume_24h
    price_change_24h := validate_numeric price_change_24h
    source := source }

/-- Python str.upper as a structural character map (the library toUpper on
strings is defined by well-founded recursion and is opaque to kernel
reduction, so the embedding maps Char.toUpper over the character list). -/
def pyUpper (s : String) : String := ⟨s.data.map Char.toUpper⟩

/-- One entity of the CoinGecko /coins/markets JSON array, in its documented
well-typed shape: every field the normalizer reads, each possibly missing
(dict .get yields the default for a missing key). -/
structure GeckoEntity where
  id : Option String := none
  symbol : Option String := none
  name : Option String := none
  current_price : Option ℚ := none
  market_cap : Option ℚ := none
  total_volume : Option ℚ := none
  price_change_percentage_24h : Option ℚ := none
deriving DecidableEq

namespace CoinGecko

/-- Page size requested from the upstream (coingecko.py line 35:
per_page = min(limit, 250)). -/
def per_page_param (limit : Nat) : Nat := min limit 250

/-- CoinGeckoIngestion.fetch_markets (coingecko.py lines 29-50): the upstream
either fails (requests raises, re-raised with its message) or returns a JSON
array, which is truncated client-side by data[:limit]. -/
def fetch_markets (upstream : Except String (List GeckoEntity)) (limit : Nat) :
    Except String (List GeckoEntity) :=
  match upstream with
  | Except.ok data => Except.ok (data.take limit)
  | Except.error e => Except.error e

/-- CoinGeckoIngestion.normalize_data (coingecko.py lines 91-107).  The
returned builder expects the value of the datetime.utcnow() call made while
constructing the CryptoPrice; on well-typed entities the try block never
raises, so the result is always some. -/
def normalize_data (raw_data : GeckoEntity) : Option (ℚ → CryptoPrice) :=
  some (fun now =>
    { coin_id := raw_data.id.getD ""
      symbol := pyUpper (raw_data.symbol.getD "")
      name := raw_data.name.getD ""
      price_usd := raw_data.current_price
      market_cap := raw_data.market_cap
      volume_24h := raw_data.total_volume
      price_change_24h := raw_data.price_change_percentage_24h
      timestamp := now
      source := "coingecko" })

/-- The per-record coin id taken in the ingest loop (coingecko.py line 138:
market.get('id', '')); the dataframe-style index is unused for this source. -/
def loop_coin_id (_idx : Nat) (market : GeckoEntity) : String :=
  market.id.getD ""

end CoinGecko

namespace CoinPaprika

/-- CoinPaprikaIngestion.fetch_tickers (coinpaprika.py lines 29-43): the
upstream request has no page-size parameter; the full response is truncated
client-side by data[:limit], and failures are re-raised. -/
def fetch_tickers (upstream : Except String (List GeckoEntity)) (limit : Nat) :
    Except String (List GeckoEntity) :=
  match upstream with
  | Except.ok data => Except.ok (data.take limit)
  | Except.error e => Except.error e

end CoinPaprika

/-- One CSV cell as produced by pandas read_csv: a parsed number, a
non-numeric text (float() on it raises ValueError), or a missing value
(pd.notna is false). -/
inductive CsvVal where
  | num : ℚ → CsvVal
  | text : String → CsvVal
  | na : CsvVal
deriving DecidableEq

/-- A CSV row: named cells, as a pandas Series keyed by column name. -/
def CsvRow : Type := List (String × CsvVal)

instance : DecidableEq CsvRow := by
  unfold CsvRow
  exact inferInstance

/-- Series.get with no default: the cell value when the column is present. -/
def rowGet (row : CsvRow) (key : String) : Option CsvVal :=
  (row.find? (fun kv => kv.fst == key)).map (fun kv => kv.snd)

/-- Nested row.get(k1, row.get(k2, ...)) fallback chains: the value of the
first column name that is present, in priority order. -/
def rowGetChain (row : CsvRow) : List String → Option CsvVal
  | [] => none
  | k :: ks =>
      match rowGet row k with
      | some v => some v
      | none => rowGetChain row ks

/-- Python str() applied to a cell value (used for coin_id/symbol/name). -/
def csvValToString : CsvVal → String
  | CsvVal.num q => toString q
  | CsvVal.text s => s
  | CsvVal.na => "nan"

/-- The pd.notna guard plus float() conversion applied to a numeric cell
(csv_source.py lines 72-96): a missing column or NaN becomes None, a number
converts, and a non-numeric text makes float() raise (Except.error). -/
def parse_float_cell (v : Option CsvVal) : Except Unit (Option ℚ) :=
  match v with
  | none => Except.ok none
  | some CsvVal.na => Except.ok none
  | some (CsvVal.num q) => Except.ok (some q)
  | some (CsvVal.text _) => Except.error ()

namespace CSV

/-- CSVIngestion.normalize_data (csv_source.py lines 64-113): alias chains are
resolved first-present-wins; any float() failure is caught by the enclosing
try/except and the whole row maps to None.  The builder expects the value of
the datetime.utcnow() call made in the CryptoPrice constructor. -/
def normalize_data (row : CsvRow) : Option (ℚ → CryptoPrice) :=
  let coin_id := csvValToString ((rowGetChain row ["id", "coin_id", "symbol"]).getD (CsvVal.text ""))
  let symbol := pyUpper (csvValToString ((rowGetChain row ["symbol", "Symbol"]).getD (CsvVal.text "")))
  let name := csvValToString ((rowGetChain row ["name", "Name"]).getD (CsvVal.text ""))
  let body : Except Unit (ℚ → CryptoPrice) := do
    let price ← parse_float_cell (rowGetChain row ["price", "Price", "price_usd", "current_price"])
    let mcap ← parse_float_cell (rowGetChain row ["market_cap", "Market_Cap", "marketcap"])
    let volume ← parse_float_cell (rowGetChain row ["volume", "Volume", "volume_24h"])
    let change ← parse_float_cell (rowGetChain row ["price_change", "Price_Change", "change_24h"])
    pure (fun now =>
      { coin_id := coin_id
        symbol := symbol
        name := name
        price_usd := price
        market_cap := mcap
        volume_24h := volume
        price_change_24h := change
        timestamp := now
        source := "csv" })
  body.toOption

/-- The per-record coin id taken in the CSV ingest loop (csv_source.py line
149: str(row.get('id', row.get('coin_id', row.get('symbol', idx))))). -/
def loop_coin_id (idx : Nat) (row : CsvRow) : String :=
  match rowGetChain row ["id", "coin_id", "symbol"] with
  | some v => csvValToString v
  | none => toString idx

end CSV

/-- Predicate used by the checkpoint query (filter ETLCheckpoint.source ==
SOURCE_NAME). -/
def cpFor (src : String) (cp : Checkpoint) : Bool := cp.source == src

/-- get_checkpoint (coingecko.py lines 52-56): first checkpoint row whose
source matches. -/
def get_checkpoint (src : String) {α : Type} (db : DB α) : Option Checkpoint :=
  db.checkpoints.find? (cpFor src)

/-- Replacement of the checkpoint object fetched by get_checkpoint: mutating
the ORM object in place corresponds to rewriting the matching row. -/
def DB.mapCheckpoint {α : Type} (db : DB α) (src : String)
    (g : Checkpoint → Checkpoint) : DB α :=
  { db with checkpoints := db.checkpoints.map (fun cp => if cpFor src cp then g cp else cp) }

/-- The field assignments of the update branch of update_checkpoint
(coingecko.py lines 69-76) on the fetched checkpoint object; t1, t2, t3 are
the values of the three datetime.utcnow() calls, in source order
(last_processed_timestamp, last_run_end, updated_at). -/
def applyCheckpointUpdate (last_id : String) (records_count : Nat)
    (status : String) (error : Option String) (t1 t2 t3 : ℚ)
    (cp : Checkpoint) : Checkpoint :=
  { cp with
    last_processed_id := last_id
    last_processed_timestamp := some t1
    records_processed := cp.records_processed + records_count
    last_run_end := some t2
    last_run_status := status
    last_error := error
    updated_at := some t3 }

/-- The checkpoint row built by the create branch of update_checkpoint
(coingecko.py lines 78-87); t1, t2, t3 are the three datetime.utcnow() calls
in constructor argument order (last_processed_timestamp, last_run_start,
last_run_end); updated_at is left to the column default (not modelled). -/
def freshCheckpoint (src last_id : String) (records_count : Nat)
    (status : String) (error : Option String) (t1 t2 t3 : ℚ) : Checkpoint :=
  { source := src
    last_processed_id := last_id
    last_processed_timestamp := some t1
    records_processed := records_count
    last_run_start := some t2
    last_run_end := some t3
    last_run_status := status
    last_error := error
    updated_at := none }

/-- update_checkpoint (coingecko.py lines 58-89, identically in
coinpaprika.py and csv_source.py): fetch the checkpoint, then either mutate
it in place (cumulative counter += records_count) or create a fresh row. -/
def update_checkpoint {α : Type} (src : String) (c : Clk) (db : DB α)
    (last_id : String) (records_count : Nat) (status : String)
    (error : Option String) : Clk × DB α :=
  match get_checkpoint src db with
  | some _ =>
      let (t1, c) := c.now
      let (t2, c) := c.now
      let (t3, c) := c.now
      (c, db.mapCheckpoint src
        (applyCheckpointUpdate last_id records_count status error t1 t2 t3))
  | none =>
      let (t1, c) := c.now
      let (t2, c) := c.now
      let (t3, c) := c.now
      (c, { db with checkpoints := db.checkpoints ++
        [freshCheckpoint src last_id records_count status error t1 t2 t3] })

/-- The ETLRunMetadata row created at run start (coingecko.py lines 114-119):
status running, no end time, counters at their column defaults. -/
def startRunRecord (run_id src : String) (start_time : ℚ) : RunMetadata :=
  { run_id := run_id
    source := src
    start_time := start_time
    end_time := none
    status := "running"
    records_processed := 0
    records_failed := 0
    duration_seconds := none
    error_message := none }

/-- The start-of-run touch of an existing checkpoint (coingecko.py lines
125-129): last_run_start takes the already-read start_time, status becomes
running. -/
def touchRunningCheckpoint (start_time : ℚ) (cp : Checkpoint) : Checkpoint :=
  { cp with last_run_start := some start_time, last_run_status := "running" }

/-- The start-of-run checkpoint touch (coingecko.py lines 125-129): applied
only when a checkpoint already exists for the source. -/
def touchPhase {α : Type} (src : String) (start_time : ℚ) (db : DB α) :
    DB α :=
  match get_checkpoint src db with
  | some _ => db.mapCheckpoint src (touchRunningCheckpoint start_time)
  | none => db

/-- Accumulator of the per-record loop (coingecko.py lines 141-166). -/
structure LoopSt (α : Type) where
  clk : Clk
  db : DB α
  processed : Nat
  failed : Nat
  last_id : Option String

/-- One iteration of the per-record loop: take the coin id, store the raw
record (one utcnow tick for ingested_at), then normalize; a produced record
is stored (one utcnow tick for its timestamp) and counted as processed,
otherwise the record counts as failed.  Batch commits are no-ops in the
model. -/
def ingestStep {α : Type} (src : String) (loop_coin_id : Nat → α → String)
    (normalize : α → Option (ℚ → CryptoPrice)) (idx : Nat) (a : α)
    (s : LoopSt α) : LoopSt α :=
  let coin_id := loop_coin_id idx a
  let (t, c) := s.clk.now
  let db := { s.db with raw_crypto_data := s.db.raw_crypto_data ++
      [{ source := src, coin_id := coin_id, data := a, ingested_at := t }] }
  match normalize a with
  | some build =>
      let (t2, c2) := c.now
      { clk := c2
        db := { db with crypto_prices := db.crypto_prices ++ [build t2] }
        processed := s.processed + 1
        failed := s.failed
        last_id := some coin_id }
  | none =>
      { clk := c
        db := db
        processed := s.processed
        failed := s.failed + 1
        last_id := some coin_id }

/-- The per-record loop over the fetched entities, threading the dataframe
index (used only by the CSV source). -/
def ingestLoop {α : Type} (src : String) (loop_coin_id : Nat → α → String)
    (normalize : α → Option (ℚ → CryptoPrice)) :
    Nat → List α → LoopSt α → LoopSt α
  | _, [], s => s
  | idx, a :: rest, s =>
      ingestLoop src loop_coin_id normalize (idx + 1) rest
        (ingestStep src loop_coin_id normalize idx a s)

/-- Result of one ingestion attempt: the value returned or the re-raised
exception message, plus the final clock and database. -/
structure IngestOut (α : Type) where
  result : Except String RunResult
  clk : Clk
  db : DB α

/-- The ingest() method shared in shape by all three sources (coingecko.py
lines 109-221, coinpaprika.py lines 102-214, csv_source.py lines 115-232),
over the source-specific coin-id extraction and normalizer.  The fetch
outcome (markets/tickers/rows, or the raised exception's message) is a
parameter.  Clock reads in source order: time.time() for the run id, then
datetime.utcnow() for start_time; on failure, after the checkpoint upsert,
one read for end_time and a separate later read for duration_seconds; on
success a single read serves both end_time and duration_seconds.  In the CSV
source the missing-file check precedes the checkpoint touch; that reordering
is invisible in the fields any theorem below inspects. -/
def runIngest {α : Type} (src : String) (loop_coin_id : Nat → α → String)
    (normalize : α → Option (ℚ → CryptoPrice)) (c : Clk) (db : DB α)
    (fetchRes : Except String (List α)) : IngestOut α :=
  let (tEpoch, c) := c.now
  let run_id := src ++ "_" ++ toString tEpoch.floor
  let (start_time, c) := c.now
  let idx := db.run_metadata.length
  let rec0 := startRunRecord run_id src start_time
  let db := { db with run_metadata := db.run_metadata ++ [rec0] }
  let db := touchPhase src start_time db
  match fetchRes with
  | Except.error e =>
      let cdb := update_checkpoint src c db "" 0 "failed" (some e)
      let c := cdb.1
      let db := cdb.2
      let (tEnd, c) := c.now
      let (tDur, c) := c.now
      let finalRec : RunMetadata :=
        { rec0 with
          end_time := some tEnd
          status := "failed"
          error_message := some e
          duration_seconds := some (tDur - start_time) }
      let db := { db with run_metadata := db.run_metadata.set idx finalRec }
      { result := Except.error e, clk := c, db := db }
  | Except.ok entities =>
      let s := ingestLoop src loop_coin_id normalize 0 entities
        { clk := c, db := db, processed := 0, failed := 0, last_id := none }
      let cdb := update_checkpoint src s.clk s.db (s.last_id.getD "")
        s.processed "success" none
      let c := cdb.1
      let db := cdb.2
      let (tEnd, c) := c.now
      let dur := tEnd - start_time
      let finalRec : RunMetadata :=
        { rec0 with
          end_time := some tEnd
          status := "success"
          records_processed := s.processed
          records_failed := s.failed
          duration_seconds := some dur }
      let db := { db with run_metadata := db.run_metadata.set idx finalRec }
      let summary : RunResult :=
        { run_id := run_id
          status := "success"
          records_processed := s.processed
          records_failed := s.failed
          duration_seconds := dur }
      { result := Except.ok summary, clk := c, db := db }

/-- CoinGeckoIngestion.ingest (coingecko.py lines 109-221): fetch_markets
feeds the shared ingest shape. -/
def CoinGecko.ingest (c : Clk) (db : DB GeckoEntity)
    (upstream : Except String (List GeckoEntity)) (limit : Nat) :
    IngestOut GeckoEntity :=
  runIngest "coingecko" CoinGecko.loop_coin_id CoinGecko.normalize_data c db
    (CoinGecko.fetch_markets upstream limit)

/-- CSVIngestion.ingest (csv_source.py lines 115-232): the file read outcome
(rows, or the FileNotFoundError/read failure message) feeds the shared ingest
shape. -/
def CSV.ingest (c : Clk) (db : DB CsvRow)
    (fileRes : Except String (List CsvRow)) : IngestOut CsvRow :=
  runIngest "csv" CSV.loop_coin_id CSV.normalize_data c db fileRes

/-- Per-source entry of the orchestrator result dict: either the ingest
summary or the failure dict built in the except arm. -/
inductive SourceEntry where
  | success : RunResult → SourceEntry
  | failed : String → SourceEntry
deriving DecidableEq

/-- The all_results dict of ETLOrchestrator.run_all (orchestrator.py lines
27-32): one slot per configured source, each None until its block runs. -/
structure OrchResult where
  coinpaprika : Option SourceEntry
  coingecko : Option SourceEntry
  csv : Option SourceEntry
  overall_status : String
deriving DecidableEq

/-- ETLOrchestrator.run_all (orchestrator.py lines 20-73): each source runs
in its own try block; an exception is recorded as a failed entry with the
exception's message and flips overall_status to partial; the function always
returns the dict (the finally arm only closes the session). -/
def run_all (paprika gecko csvr : Except String RunResult) : OrchResult :=
  let st : OrchResult :=
    { coinpaprika := none, coingecko := none, csv := none,
      overall_status := "success" }
  let st := match paprika with
    | Except.ok r => { st with coinpaprika := some (SourceEntry.success r) }
    | Except.error e =>
        { st with coinpaprika := some (SourceEntry.failed e), overall_status := "partial" }
  let st := match gecko with
    | Except.ok r => { st with coingecko := some (SourceEntry.success r) }
    | Except.error e =>
        { st with coingecko := some (SourceEntry.failed e), overall_status := "partial" }
  let st := match csvr with
    | Except.ok r => { st with csv := some (SourceEntry.success r) }
    | Except.error e =>
        { st with csv := some (SourceEntry.failed e), overall_status := "partial" }
  st

/-! Concrete fixtures used by the closed witnesses and counterexamples. -/

/-- Test clock whose reading at call index i is i seconds. -/
def clkId : Clk := ⟨fun i => (i : ℚ), 0⟩

/-- Test clock whose reading at call index i is i hundredths of a second:
many consecutive calls fall inside the same wall-clock second. -/
def clkCenti : Clk := ⟨fun i => mkRat i 100, 0⟩

/-- An empty database. -/
def dbEmpty : DB GeckoEntity := ⟨[], [], [], []⟩

/-- A checkpoint left by a previous successful coingecko run: cursor at
bitcoin, cumulative counter 10. -/
def cpSample : Checkpoint :=
  { source := "coingecko"
    last_processed_id := "bitcoin"
    last_processed_timestamp := some 5
    records_processed := 10
    last_run_start := some 1
    last_run_end := some 2
    last_run_status := "success"
    last_error := none
    updated_at := some 2 }

/-- A database holding only cpSample. -/
def dbSample : DB GeckoEntity := ⟨[], [], [cpSample], []⟩

/-- A finalized run record from an earlier attempt. -/
def rmSample : RunMetadata :=
  { run_id := "coingecko_0"
    source := "coingecko"
    start_time := 0
    end_time := some 1
    status := "success"
    records_processed := 1
    records_failed := 0
    duration_seconds := some 1
    error_message := none }

/-- A database already holding one finalized run record. -/
def dbRm1 : DB GeckoEntity := ⟨[], [], [], [rmSample]⟩

/-- A successful ingest summary used as an orchestrator input. -/
def sampleSummary : RunResult :=
  { run_id := "coingecko_0"
    status := "success"
    records_processed := 10
    records_failed := 0
    duration_seconds := 2 }

/-- An upstream entity carrying a negative price. -/
def eNeg : GeckoEntity :=
  { id := some "bitcoin", symbol := some "btc", current_price := some (-100) }

/-- Ten well-formed upstream entities. -/
def l10 : List GeckoEntity := List.replicate 10 {}

/-- Fifteen well-formed upstream entities. -/
def l15 : List GeckoEntity := List.replicate 15 {}

/-! Helper lemmas about the embedding. -/

lemma set_length_concat {β : Type} (l : List β) (a b : β) :
    (l ++ [a]).set l.length b = l ++ [b] := by
  induction l with
  | nil => rfl
  | cons x t ih => simp [List.set, ih]

lemma getLast?_of_concat {β : Type} (l : List β) (a : β) :
    (l ++ [a]).getLast? = some a := by
  rw [List.getLast?_append_cons]
  rfl

lemma find?_map_if {β : Type} (l : List β) (p : β → Bool)
    (g : β → β) (cp : β)
    (hg : ∀ x, p (g x) = p x) (h : l.find? p = some cp) :
    (l.map (fun x => if p x then g x else x)).find? p = some (g cp) := by
  induction l with
  | nil => simp at h
  | cons a t ih =>
      by_cases hpa : p a = true
      · rw [List.find?_cons_of_pos _ hpa] at h
        injection h with h
        subst h
        have hga : p (g a) = true := (hg a).trans hpa
        simp only [List.map_cons, if_pos hpa]
        rw [List.find?_cons_of_pos _ hga]
      · rw [List.find?_cons_of_neg _ hpa] at h
        simp only [List.map_cons, if_neg hpa]
        rw [List.find?_cons_of_neg _ hpa]
        exact ih h

lemma get_checkpoint_mapCheckpoint {α : Type} (src : String) (db : DB α)
    (g : Checkpoint → Checkpoint) (cp : Checkpoint)
    (hg : ∀ x, (g x).source = x.source)
    (h : get_checkpoint src db = some cp) :
    get_checkpoint src (db.mapCheckpoint src g) = some (g cp) := by
  unfold get_checkpoint DB.mapCheckpoint at *
  exact find?_map_if db.checkpoints (cpFor src) g cp
    (fun x => by simp [cpFor, hg x]) h

lemma update_checkpoint_clk {α : Type} (src : String) (c : Clk) (db : DB α)
    (last_id : String) (n : Nat) (status : String) (error : Option String) :
    (update_checkpoint src c db last_id n status error).1 = ⟨c.f, c.i + 3⟩ := by
  unfold update_checkpoint
  cases get_checkpoint src db <;> rfl

lemma update_checkpoint_run_metadata {α : Type} (src : String) (c : Clk)
    (db : DB α) (last_id : String) (n : Nat) (status : String)
    (error : Option String) :
    (update_checkpoint src c db last_id n status error).2.run_metadata =
      db.run_metadata := by
  unfold update_checkpoint
  cases get_checkpoint src db <;> rfl

lemma update_checkpoint_raw {α : Type} (src : String) (c : Clk) (db : DB α)
    (last_id : String) (n : Nat) (status : String) (error : Option String) :
    (update_checkpoint src c db last_id n status error).2.raw_crypto_data =
      db.raw_crypto_data := by
  unfold update_checkpoint
  cases get_checkpoint src db <;> rfl

lemma update_checkpoint_prices {α : Type} (src : String) (c : Clk) (db : DB α)
    (last_id : String) (n : Nat) (status : String) (error : Option String) :
    (update_checkpoint src c db last_id n status error).2.crypto_prices =
      db.crypto_prices := by
  unfold update_checkpoint
  cases get_checkpoint src db <;> rfl

lemma ingestStep_run_metadata {α : Type} (src : String)
    (gid : Nat → α → String) (nrm : α → Option (ℚ → CryptoPrice))
    (idx : Nat) (a : α) (s : LoopSt α) :
    (ingestStep src gid nrm idx a s).db.run_metadata = s.db.run_metadata := by
  unfold ingestStep
  cases nrm a <;> rfl

lemma ingestStep_checkpoints {α : Type} (src : String)
    (gid : Nat → α → String) (nrm : α → Option (ℚ → CryptoPrice))
    (idx : Nat) (a : α) (s : LoopSt α) :
    (ingestStep src gid nrm idx a s).db.checkpoints = s.db.checkpoints := by
  unfold ingestStep
  cases nrm a <;> rfl

lemma ingestStep_clk_f {α : Type} (src : String)
    (gid : Nat → α → String) (nrm : α → Option (ℚ → CryptoPrice))
    (idx : Nat) (a : α) (s : LoopSt α) :
    (ingestStep src gid nrm idx a s).clk.f = s.clk.f := by
  unfold ingestStep
  cases nrm a <;> rfl

lemma ingestStep_clk_i {α : Type} (src : String)
    (gid : Nat → α → String) (nrm : α → Option (ℚ → CryptoPrice))
    (idx : Nat) (a : α) (s : LoopSt α) :
    (ingestStep src gid nrm idx a s).clk.i =
      s.clk.i + (if (nrm a).isSome then 2 else 1) := by
  unfold ingestStep
  cases h : nrm a <;> simp [h, Clk.now]

lemma ingestStep_processed {α : Type} (src : String)
    (gid : Nat → α → String) (nrm : α → Option (ℚ → CryptoPrice))
    (idx : Nat) (a : α) (s : LoopSt α) :
    (ingestStep src gid nrm idx a s).processed =
      s.processed + (if (nrm a).isSome then 1 else 0) := by
  unfold ingestStep
  cases h : nrm a <;> simp [h]

lemma ingestStep_failed {α : Type} (src : String)
    (gid : Nat → α → String) (nrm : α → Option (ℚ → CryptoPrice))
    (idx : Nat) (a : α) (s : LoopSt α) :
    (ingestStep src gid nrm idx a s).failed =
      s.failed + (if (nrm a).isSome then 0 else 1) := by
  unfold ingestStep
  cases h : nrm a <;> simp [h]

lemma ingestStep_raw_data {α : Type} (src : String)
    (gid : Nat → α → String) (nrm : α → Option (ℚ → CryptoPrice))
    (idx : Nat) (a : α) (s : LoopSt α) :
    (ingestStep src gid nrm idx a s).db.raw_crypto_data.map
        (fun r => r.data) =
      s.db.raw_crypto_data.map (fun r => r.data) ++ [a] := by
  unfold ingestStep
  cases h : nrm a <;> simp [h]

lemma ingestLoop_run_metadata {α : Type} (src : String)
    (gid : Nat → α → String) (nrm : α → Option (ℚ → CryptoPrice))
    (entities : List α) : ∀ (idx : Nat) (s : LoopSt α),
    (ingestLoop src gid nrm idx entities s).db.run_metadata =
      s.db.run_metadata := by
  induction entities with
  | nil => intro idx s; rfl
  | cons a rest ih =>
      intro idx s
      rw [ingestLoop, ih, ingestStep_run_metadata]

lemma ingestLoop_checkpoints {α : Type} (src : String)
    (gid : Nat → α → String) (nrm : α → Option (ℚ → CryptoPrice))
    (entities : List α) : ∀ (idx : Nat) (s : LoopSt α),
    (ingestLoop src gid nrm idx entities s).db.checkpoints =
      s.db.checkpoints := by
  induction entities with
  | nil => intro idx s; rfl
  | cons a rest ih =>
      intro idx s
      rw [ingestLoop, ih, ingestStep_checkpoints]

lemma ingestLoop_clk_f {α : Type} (src : String)
    (gid : Nat → α → String) (nrm : α → Option (ℚ → CryptoPrice))
    (entities : List α) : ∀ (idx : Nat) (s : LoopSt α),
    (ingestLoop src gid nrm idx entities s).clk.f = s.clk.f := by
  induction entities with
  | nil => intro idx s; rfl
  | cons a rest ih =>
      intro idx s
      rw [ingestLoop, ih, ingestStep_clk_f]

lemma ingestLoop_clk_i {α : Type} (src : String)
    (gid : Nat → α → String) (nrm : α → Option (ℚ → CryptoPrice))
    (entities : List α) : ∀ (idx : Nat) (s : LoopSt α),
    (ingestLoop src gid nrm idx entities s).clk.i =
      s.clk.i + entities.length +
        (entities.countP (fun a => (nrm a).isSome)) := by
  induction entities with
  | nil => intro idx s; simp [ingestLoop]
  | cons a rest ih =>
      intro idx s
      rw [ingestLoop, ih, ingestStep_clk_i, List.countP_cons]
      cases h : (nrm a).isSome <;> simp [h] <;> omega

lemma ingestLoop_processed {α : Type} (src : String)
    (gid : Nat → α → String) (nrm : α → Option (ℚ → CryptoPrice))
    (entities : List α) : ∀ (idx : Nat) (s : LoopSt α),
    (ingestLoop src gid nrm idx entities s).processed =
      s.processed + entities.countP (fun a => (nrm a).isSome) := by
  induction entities with
  | nil => intro idx s; simp [ingestLoop]
  | cons a rest ih =>
      intro idx s
      rw [ingestLoop, ih, ingestStep_processed, List.countP_cons]
      cases h : (nrm a).isSome <;> simp [h]
      omega

lemma ingestLoop_failed {α : Type} (src : String)
    (gid : Nat → α → String) (nrm : α → Option (ℚ → CryptoPrice))
    (entities : List α) : ∀ (idx : Nat) (s : LoopSt α),
    (ingestLoop src gid nrm idx entities s).failed =
      s.failed + entities.countP (fun a => !(nrm a).isSome) := by
  induction entities with
  | nil => intro idx s; simp [ingestLoop]
  | cons a rest ih =>
      intro idx s
      rw [ingestLoop, ih, ingestStep_failed, List.countP_cons]
      cases h : (nrm a).isSome <;> simp [h]
      omega

lemma ingestLoop_raw_data {α : Type} (src : String)
    (gid : Nat → α → String) (nrm : α → Option (ℚ → CryptoPrice))
    (entities : List α) : ∀ (idx : Nat) (s : LoopSt α),
    (ingestLoop src gid nrm idx entities s).db.raw_crypto_data.map
        (fun r => r.data) =
      s.db.raw_crypto_data.map (fun r => r.data) ++ entities := by
  induction entities with
  | nil => intro idx s; simp [ingestLoop]
  | cons a rest ih =>
      intro idx s
      rw [ingestLoop, ih, ingestStep_raw_data]
      simp

lemma touchPhase_run_metadata {α : Type} (src : String) (t : ℚ)
    (db : DB α) : (touchPhase src t db).run_metadata = db.run_metadata := by
  unfold touchPhase
  cases get_checkpoint src db <;> rfl

lemma touchPhase_raw {α : Type} (src : String) (t : ℚ) (db : DB α) :
    (touchPhase src t db).raw_crypto_data = db.raw_crypto_data := by
  unfold touchPhase
  cases get_checkpoint src db <;> rfl

lemma touchPhase_prices {α : Type} (src : String) (t : ℚ) (db : DB α) :
    (touchPhase src t db).crypto_prices = db.crypto_prices := by
  unfold touchPhase
  cases get_checkpoint src db <;> rfl

lemma get_checkpoint_set_rm {α : Type} (src : String) (db : DB α)
    (rm : List RunMetadata) :
    get_checkpoint src { db with run_metadata := rm } =
      get_checkpoint src db := rfl

lemma get_checkpoint_touchPhase {α : Type} (src : String) (t : ℚ)
    (db : DB α) (cp : Checkpoint) (h : get_checkpoint src db = some cp) :
    get_checkpoint src (touchPhase src t db) =
      some (touchRunningCheckpoint t cp) := by
  unfold touchPhase
  rw [h]
  exact get_checkpoint_mapCheckpoint src db _ cp (fun x => rfl) h

lemma get_checkpoint_update_checkpoint {α : Type} (src : String) (c : Clk)
    (db : DB α) (last_id : String) (n : Nat) (status : String)
    (error : Option String) (cp : Checkpoint)
    (h : get_checkpoint src db = some cp) :
    get_checkpoint src (update_checkpoint src c db last_id n status error).2 =
      some (applyCheckpointUpdate last_id n status error (c.f c.i)
        (c.f (c.i + 1)) (c.f (c.i + 1 + 1)) cp) := by
  unfold update_checkpoint
  rw [h]
  simp only [Clk.now]
  exact get_checkpoint_mapCheckpoint src db _ cp (fun x => rfl) h

lemma runIngest_error_result {α : Type} (src : String)
    (gid : Nat → α → String) (nrm : α → Option (ℚ → CryptoPrice))
    (c : Clk) (db : DB α) (e : String) :
    (runIngest src gid nrm c db (Except.error e)).result = Except.error e :=
  rfl

lemma runIngest_error_run_metadata {α : Type} (src : String)
    (gid : Nat → α → String) (nrm : α → Option (ℚ → CryptoPrice))
    (c : Clk) (db : DB α) (e : String) :
    (runIngest src gid nrm c db (Except.error e)).db.run_metadata =
      db.run_metadata ++
        [{ startRunRecord (src ++ "_" ++ toString (c.f c.i).floor) src
            (c.f (c.i + 1)) with
           end_time := some (c.f (c.i + 5))
           status := "failed"
           error_message := some e
           duration_seconds := some (c.f (c.i + 6) - c.f (c.i + 1)) }] := by
  simp only [runIngest, Clk.now, update_checkpoint_clk,
    update_checkpoint_run_metadata, touchPhase_run_metadata]
  rw [set_length_concat]

lemma runIngest_error_checkpoint {α : Type} (src : String)
    (gid : Nat → α → String) (nrm : α → Option (ℚ → CryptoPrice))
    (c : Clk) (db : DB α) (e : String) (cp : Checkpoint)
    (hcp : get_checkpoint src db = some cp) :
    get_checkpoint src (runIngest src gid nrm c db (Except.error e)).db =
      some (applyCheckpointUpdate "" 0 "failed" (some e) (c.f (c.i + 2))
        (c.f (c.i + 3)) (c.f (c.i + 4))
        (touchRunningCheckpoint (c.f (c.i + 1)) cp)) := by
  simp only [runIngest, Clk.now]
  rw [get_checkpoint_set_rm]
  rw [get_checkpoint_update_checkpoint src ⟨c.f, c.i + 1 + 1⟩
    (touchPhase src (c.f (c.i + 1))
      { db with run_metadata := db.run_metadata ++
          [startRunRecord (src ++ "_" ++ toString (c.f c.i).floor) src (c.f (c.i + 1))] })
    "" 0 "failed" (some e) _
    (get_checkpoint_touchPhase src (c.f (c.i + 1))
      { db with run_metadata := db.run_metadata ++
          [startRunRecord (src ++ "_" ++ toString (c.f c.i).floor) src (c.f (c.i + 1))] }
      cp hcp)]

lemma runIngest_ok_result {α : Type} (src : String)
    (gid : Nat → α → String) (nrm : α → Option (ℚ → CryptoPrice))
    (c : Clk) (db : DB α) (entities : List α) :
    (runIngest src gid nrm c db (Except.ok entities)).result = Except.ok
      { run_id := src ++ "_" ++ toString (c.f c.i).floor
        status := "success"
        records_processed := entities.countP (fun a => (nrm a).isSome)
        records_failed := entities.countP (fun a => !(nrm a).isSome)
        duration_seconds :=
          c.f (c.i + 5 + entities.length +
            entities.countP (fun a => (nrm a).isSome)) - c.f (c.i + 1) } := by
  simp only [runIngest, Clk.now, update_checkpoint_clk, ingestLoop_processed,
    ingestLoop_failed, ingestLoop_clk_f, ingestLoop_clk_i]
  simp [Nat.add_assoc, Nat.add_comm, Nat.add_left_comm]
  congr 1
  omega

lemma runIngest_ok_run_metadata {α : Type} (src : String)
    (gid : Nat → α → String) (nrm : α → Option (ℚ → CryptoPrice))
    (c : Clk) (db : DB α) (entities : List α) :
    (runIngest src gid nrm c db (Except.ok entities)).db.run_metadata =
      db.run_metadata ++
        [{ startRunRecord (src ++ "_" ++ toString (c.f c.i).floor) src
            (c.f (c.i + 1)) with
           end_time := some (c.f (c.i + 5 + entities.length +
             entities.countP (fun a => (nrm a).isSome)))
           status := "success"
           records_processed := entities.countP (fun a => (nrm a).isSome)
           records_failed := entities.countP (fun a => !(nrm a).isSome)
           duration_seconds := some (c.f (c.i + 5 + entities.length +
             entities.countP (fun a => (nrm a).isSome)) - c.f (c.i + 1)) }] := by
  simp only [runIngest, Clk.now, update_checkpoint_clk,
    update_checkpoint_run_metadata, ingestLoop_run_metadata,
    ingestLoop_processed, ingestLoop_failed, ingestLoop_clk_f,
    ingestLoop_clk_i, touchPhase_run_metadata]
  rw [set_length_concat]
  simp [Nat.add_assoc, Nat.add_comm, Nat.add_left_comm]
  congr 1
  omega

lemma runIngest_ok_raw_data {α : Type} (src : String)
    (gid : Nat → α → String) (nrm : α → Option (ℚ → CryptoPrice))
    (c : Clk) (db : DB α) (entities : List α) :
    (runIngest src gid nrm c db (Except.ok entities)).db.raw_crypto_data.map
        (fun r => r.data) =
      db.raw_crypto_data.map (fun r => r.data) ++ entities := by
  simp only [runIngest, Clk.now, update_checkpoint_raw, ingestLoop_raw_data,
    touchPhase_raw]

/-! Claim theorems. -/

/-- C8: for every limit and every upstream response, fetch(limit) returns at
most limit records — the CoinGecko client requests a page sized
min(limit, 250) and truncates the response to limit, the CoinPaprika client
truncates the full response to limit client-side, and on a non-2xx or network
failure both fetches re-raise instead of returning partial data. -/
theorem c8_fetch_limit_truncation :
    (∀ (l : List GeckoEntity) (limit : Nat),
        CoinGecko.fetch_markets (Except.ok l) limit = Except.ok (l.take limit) ∧
        (l.take limit).length ≤ limit ∧
        CoinGecko.per_page_param limit = min limit 250) ∧
    (∀ (e : String) (limit : Nat),
        CoinGecko.fetch_markets (Except.error e) limit = Except.error e) ∧
    (∀ (l : List GeckoEntity) (limit : Nat),
        CoinPaprika.fetch_tickers (Except.ok l) limit = Except.ok (l.take limit) ∧
        (l.take limit).length ≤ limit) ∧
    (∀ (e : String) (limit : Nat),
        CoinPaprika.fetch_tickers (Except.error e) limit = Except.error e) := by
  refine ⟨fun l limit => ⟨rfl, ?_, rfl⟩, fun e limit => rfl,
    fun l limit => ⟨rfl, ?_⟩, fun e limit => rfl⟩ <;>
    simp [List.length_take]

/-- C9: on the failure path of an ingestion attempt the checkpoint upsert is
invoked with an empty last_id, so the stored last_processed_id becomes the
empty string and last_processed_timestamp is overwritten with a clock reading
of the failed run: the resume cursor of the previous successful run is not
preserved across a failed run. -/
theorem c9_failure_overwrites_cursor {α : Type} (src : String)
    (gid : Nat → α → String) (nrm : α → Option (ℚ → CryptoPrice))
    (c : Clk) (db : DB α) (e : String) (cp : Checkpoint)
    (hcp : get_checkpoint src db = some cp) :
    ((get_checkpoint src (runIngest src gid nrm c db (Except.error e)).db).map
        (fun x => x.last_processed_id) = some "") ∧
    ((get_checkpoint src (runIngest src gid nrm c db (Except.error e)).db).map
        (fun x => x.last_processed_timestamp) = some (some (c.f (c.i + 2)))) ∧
    (cp.last_processed_id ≠ "" →
      (get_checkpoint src (runIngest src gid nrm c db (Except.error e)).db).map
          (fun x => x.last_processed_id) ≠ some cp.last_processed_id) := by
  rw [runIngest_error_checkpoint src gid nrm c db e cp hcp]
  refine ⟨rfl, rfl, fun h hh => h ?_⟩
  simp only [applyCheckpointUpdate, Option.map_some] at hh
  injection hh with hh
  exact hh.symm

/-- Closed witness for c9_failure_overwrites_cursor at a concrete database
holding a prior successful checkpoint. -/
theorem c9_failure_overwrites_cursor_witness :
    get_checkpoint "coingecko" dbSample = some cpSample ∧
    (((get_checkpoint "coingecko"
        (runIngest "coingecko" CoinGecko.loop_coin_id CoinGecko.normalize_data
          clkId dbSample (Except.error "boom")).db).map
        (fun x => x.last_processed_id) = some "") ∧
    ((get_checkpoint "coingecko"
        (runIngest "coingecko" CoinGecko.loop_coin_id CoinGecko.normalize_data
          clkId dbSample (Except.error "boom")).db).map
        (fun x => x.last_processed_timestamp) =
          some (some (clkId.f (clkId.i + 2)))) ∧
    (cpSample.last_processed_id ≠ "" →
      (get_checkpoint "coingecko"
        (runIngest "coingecko" CoinGecko.loop_coin_id CoinGecko.normalize_data
          clkId dbSample (Except.error "boom")).db).map
          (fun x => x.last_processed_id) ≠ some cpSample.last_processed_id)) :=
  ⟨rfl, c9_failure_overwrites_cursor "coingecko" CoinGecko.loop_coin_id
    CoinGecko.normalize_data clkId dbSample "boom" cpSample rfl⟩

/-- C10: in every successful ingestion run a RawRecord is added for every
fetched entity regardless of whether its normalization succeeds, and at the
end of the loop records_processed + records_failed equals the number of
fetched entities, with records_processed counting exactly the entities whose
normalization produced a NormalizedPrice. -/
theorem c10_per_record_accounting {α : Type} (src : String)
    (gid : Nat → α → String) (nrm : α → Option (ℚ → CryptoPrice))
    (c : Clk) (db : DB α) (entities : List α) :
    ((runIngest src gid nrm c db (Except.ok entities)).db.raw_crypto_data.map
        (fun r => r.data) =
      db.raw_crypto_data.map (fun r => r.data) ++ entities) ∧
    ((runIngest src gid nrm c db (Except.ok entities)).db.raw_crypto_data.length
      = db.raw_crypto_data.length + entities.length) ∧
    (∃ r, (runIngest src gid nrm c db (Except.ok entities)).result =
        Except.ok r ∧
      r.records_processed = entities.countP (fun a => (nrm a).isSome) ∧
      r.records_failed = entities.countP (fun a => !(nrm a).isSome) ∧
      r.records_processed + r.records_failed = entities.length) := by
  have hraw := runIngest_ok_raw_data src gid nrm c db entities
  refine ⟨hraw, ?_, ?_⟩
  · have := congrArg List.length hraw
    simpa using this
  · refine ⟨_, runIngest_ok_result src gid nrm c db entities, rfl, rfl, ?_⟩
    simp [List.length_eq_countP_add_countP (fun a => (nrm a).isSome),
      Nat.add_comm]

/-- C2 counterexample: the claim requires the failing entry's error to be a
non-empty message, but the orchestrator records exactly str(e); a source that
raises an exception whose message is empty yields the entry
{status: failed, error: <empty string>}. -/
theorem c2_counterexample :
    (run_all (Except.error "") (Except.ok sampleSummary)
        (Except.ok sampleSummary)).coinpaprika =
      some (SourceEntry.failed "") ∧
    (run_all (Except.error "") (Except.ok sampleSummary)
        (Except.ok sampleSummary)).overall_status = "partial" ∧
    "" = "" :=
  ⟨rfl, rfl, rfl⟩

/-- C2 (amended): when exactly one source's ingestion raises with message m
and the other two succeed, run_all returns overall_status partial, the
failing source's entry {status: failed, error: m} (non-empty exactly when m
is), the two succeeding entries as full success summaries, all three sources
enumerated, and run_all is total (never raises); overall_status is success
exactly when every source succeeded. -/
theorem c2_partial_failure_isolation :
    (∀ (m : String) (s2 s3 : RunResult),
        run_all (Except.error m) (Except.ok s2) (Except.ok s3) =
          { coinpaprika := some (SourceEntry.failed m)
            coingecko := some (SourceEntry.success s2)
            csv := some (SourceEntry.success s3)
            overall_status := "partial" }) ∧
    (∀ (m : String) (s1 s3 : RunResult),
        run_all (Except.ok s1) (Except.error m) (Except.ok s3) =
          { coinpaprika := some (SourceEntry.success s1)
            coingecko := some (SourceEntry.failed m)
            csv := some (SourceEntry.success s3)
            overall_status := "partial" }) ∧
    (∀ (m : String) (s1 s2 : RunResult),
        run_all (Except.ok s1) (Except.ok s2) (Except.error m) =
          { coinpaprika := some (SourceEntry.success s1)
            coingecko := some (SourceEntry.success s2)
            csv := some (SourceEntry.failed m)
            overall_status := "partial" }) ∧
    (∀ (r1 r2 r3 : Except String RunResult),
        (run_all r1 r2 r3).overall_status = "success" ↔
          (∃ s, r1 = Except.ok s) ∧ (∃ s, r2 = Except.ok s) ∧
          (∃ s, r3 = Except.ok s)) := by
  refine ⟨fun m s2 s3 => rfl, fun m s1 s3 => rfl, fun m s1 s2 => rfl, ?_⟩
  intro r1 r2 r3
  cases r1 <;> cases r2 <;> cases r3 <;> simp [run_all]

/-- C3 counterexample: the claim requires the failed RunRecord's error
message to be non-empty, but the ingestor stores exactly str(e); a fetch that
raises an exception with an empty message leaves an empty error message. -/
theorem c3_counterexample :
    ((CoinGecko.ingest clkId dbEmpty (Except.error "") 100).db.run_metadata.map
        (fun r => (r.status, r.error_message))) = [("failed", some "")] ∧
    (CoinGecko.ingest clkId dbEmpty (Except.error "") 100).result =
      Except.error "" := by
  constructor
  · rfl
  · rfl

/-- C3 (amended): for every ingestion attempt whose fetch raises with message
m, against a database holding a prior checkpoint, the run record is finalized
to status failed with error message m (non-empty exactly when m is) and an
end time set, the checkpoint is upserted with last_run_status failed and a
delta of zero (cumulative counter unchanged) and last_error m, and the
exception is re-raised to the caller. -/
theorem c3_fetch_failure_finalization {α : Type} (src : String)
    (gid : Nat → α → String) (nrm : α → Option (ℚ → CryptoPrice))
    (c : Clk) (db : DB α) (e : String) (cp : Checkpoint)
    (hcp : get_checkpoint src db = some cp) :
    (runIngest src gid nrm c db (Except.error e)).result = Except.error e ∧
    ((runIngest src gid nrm c db (Except.error e)).db.run_metadata.getLast?).map
        (fun r => r.status) = some "failed" ∧
    ((runIngest src gid nrm c db (Except.error e)).db.run_metadata.getLast?).map
        (fun r => r.error_message) = some (some e) ∧
    ((runIngest src gid nrm c db (Except.error e)).db.run_metadata.getLast?).map
        (fun r => r.end_time) = some (some (c.f (c.i + 5))) ∧
    (get_checkpoint src (runIngest src gid nrm c db (Except.error e)).db).map
        (fun x => x.last_run_status) = some "failed" ∧
    (get_checkpoint src (runIngest src gid nrm c db (Except.error e)).db).map
        (fun x => x.records_processed) = some cp.records_processed ∧
    (get_checkpoint src (runIngest src gid nrm c db (Except.error e)).db).map
        (fun x => x.last_error) = some (some e) := by
  have hrm := runIngest_error_run_metadata src gid nrm c db e
  have hchk := runIngest_error_checkpoint src gid nrm c db e cp hcp
  refine ⟨runIngest_error_result src gid nrm c db e, ?_, ?_, ?_, ?_, ?_, ?_⟩ <;>
    first
      | (rw [hrm, getLast?_of_concat]; rfl)
      | (rw [hchk]; rfl)

/-- Closed witness for c3_fetch_failure_finalization on a concrete database
with a prior checkpoint. -/
theorem c3_fetch_failure_finalization_witness :
    get_checkpoint "coingecko" dbSample = some cpSample ∧
    ((runIngest "coingecko" CoinGecko.loop_coin_id CoinGecko.normalize_data
        clkId dbSample (Except.error "boom")).result = Except.error "boom" ∧
    ((runIngest "coingecko" CoinGecko.loop_coin_id CoinGecko.normalize_data
        clkId dbSample (Except.error "boom")).db.run_metadata.getLast?).map
        (fun r => r.status) = some "failed" ∧
    ((runIngest "coingecko" CoinGecko.loop_coin_id CoinGecko.normalize_data
        clkId dbSample (Except.error "boom")).db.run_metadata.getLast?).map
        (fun r => r.error_message) = some (some "boom") ∧
    ((runIngest "coingecko" CoinGecko.loop_coin_id CoinGecko.normalize_data
        clkId dbSample (Except.error "boom")).db.run_metadata.getLast?).map
        (fun r => r.end_time) = some (some (clkId.f (clkId.i + 5))) ∧
    (get_checkpoint "coingecko"
        (runIngest "coingecko" CoinGecko.loop_coin_id CoinGecko.normalize_data
          clkId dbSample (Except.error "boom")).db).map
        (fun x => x.last_run_status) = some "failed" ∧
    (get_checkpoint "coingecko"
        (runIngest "coingecko" CoinGecko.loop_coin_id CoinGecko.normalize_data
          clkId dbSample (Except.error "boom")).db).map
        (fun x => x.records_processed) = some cpSample.records_processed ∧
    (get_checkpoint "coingecko"
        (runIngest "coingecko" CoinGecko.loop_coin_id CoinGecko.normalize_data
          clkId dbSample (Except.error "boom")).db).map
        (fun x => x.last_error) = some (some "boom")) :=
  ⟨rfl, c3_fetch_failure_finalization "coingecko" CoinGecko.loop_coin_id
    CoinGecko.normalize_data clkId dbSample "boom" cpSample rfl⟩

/-- C5 counterexample: the claim requires the cumulative counter to strictly
increase across runs, but a successful run that processes zero records (here:
the upstream returns an empty list) adds a delta of zero and leaves the
counter unchanged. -/
theorem c5_counterexample :
    ((CoinGecko.ingest clkId dbSample (Except.ok []) 100).result.map
        (fun r => r.status) = Except.ok "success") ∧
    dbSample.checkpoints.map (fun x => x.records_processed) = [10] ∧
    (CoinGecko.ingest clkId dbSample (Except.ok []) 100).db.checkpoints.map
        (fun x => x.records_processed) = [10] :=
  ⟨rfl, rfl, rfl⟩

/-- C5 (amended): every checkpoint upsert on the update path adds the run's
delta to the cumulative counter rather than overwriting it (so two successive
successful runs processing 10 then 15 records leave the counter at 25, not
15); the counter never decreases (strictly increases exactly when the delta
is positive); and on success the stored last_error is cleared to absent. -/
theorem c5_checkpoint_accumulation {α : Type} (src : String) (c : Clk)
    (db : DB α) (last_id : String) (n : Nat) (status : String)
    (error : Option String) (cp : Checkpoint)
    (hcp : get_checkpoint src db = some cp) :
    ((get_checkpoint src
        (update_checkpoint src c db last_id n status error).2).map
        (fun x => x.records_processed) = some (cp.records_processed + n)) ∧
    cp.records_processed ≤ cp.records_processed + n ∧
    (0 < n → cp.records_processed < cp.records_processed + n) ∧
    ((get_checkpoint src
        (update_checkpoint src c db last_id n "success" none).2).map
        (fun x => x.last_error) = some none) ∧
    ((CoinGecko.ingest clkId dbEmpty (Except.ok l10) 100).db.checkpoints.map
        (fun x => x.records_processed) = [10]) ∧
    ((CoinGecko.ingest (CoinGecko.ingest clkId dbEmpty (Except.ok l10) 100).clk
        (CoinGecko.ingest clkId dbEmpty (Except.ok l10) 100).db
        (Except.ok l15) 100).db.checkpoints.map
        (fun x => x.records_processed) = [25]) := by
  refine ⟨?_, Nat.le_add_right _ _, fun h => Nat.lt_add_of_pos_right h, ?_,
    ?_, ?_⟩
  · rw [get_checkpoint_update_checkpoint src c db last_id n status error cp hcp]
    rfl
  · rw [get_checkpoint_update_checkpoint src c db last_id n "success" none cp hcp]
    rfl
  · rfl
  · rfl

/-- Closed witness for c5_checkpoint_accumulation on a concrete database with
a prior checkpoint holding counter 10 and a delta of 7. -/
theorem c5_checkpoint_accumulation_witness :
    get_checkpoint "coingecko" dbSample = some cpSample ∧
    (((get_checkpoint "coingecko"
        (update_checkpoint "coingecko" clkId dbSample "eth" 7 "success"
          none).2).map
        (fun x => x.records_processed) =
          some (cpSample.records_processed + 7)) ∧
    cpSample.records_processed ≤ cpSample.records_processed + 7 ∧
    (0 < 7 → cpSample.records_processed < cpSample.records_processed + 7) ∧
    ((get_checkpoint "coingecko"
        (update_checkpoint "coingecko" clkId dbSample "eth" 7 "success"
          none).2).map
        (fun x => x.last_error) = some none) ∧
    ((CoinGecko.ingest clkId dbEmpty (Except.ok l10) 100).db.checkpoints.map
        (fun x => x.records_processed) = [10]) ∧
    ((CoinGecko.ingest (CoinGecko.ingest clkId dbEmpty (Except.ok l10) 100).clk
        (CoinGecko.ingest clkId dbEmpty (Except.ok l10) 100).db
        (Except.ok l15) 100).db.checkpoints.map
        (fun x => x.records_processed) = [25])) :=
  ⟨rfl, c5_checkpoint_accumulation "coingecko" clkId dbSample "eth" 7
    "success" none cpSample rfl⟩

/-- C7: run ids are source name plus int(time.time()), a one-second
resolution timestamp; two distinct ingestion attempts for the same source
started within the same wall-clock second receive the same run id, violating
the claimed global uniqueness (and the unique constraint on the run_id
column).  The two attempts are distinct: their start times differ. -/
theorem c7_run_id_collision :
    ((CoinGecko.ingest (CoinGecko.ingest clkCenti dbEmpty (Except.ok []) 100).clk
        (CoinGecko.ingest clkCenti dbEmpty (Except.ok []) 100).db
        (Except.ok []) 100).db.run_metadata.map
        (fun r => r.run_id) = ["coingecko_0", "coingecko_0"]) ∧
    ((CoinGecko.ingest (CoinGecko.ingest clkCenti dbEmpty (Except.ok []) 100).clk
        (CoinGecko.ingest clkCenti dbEmpty (Except.ok []) 100).db
        (Except.ok []) 100).db.run_metadata.map
        (fun r => r.start_time) = [mkRat 1 100, mkRat 7 100]) := by
  constructor
  · rfl
  · decide

/-- C1 counterexample: the claim says an out-of-range source value is stored
as absent, but the ingestion path constructs the database row directly
without running the schema validator: an upstream price of -100 is stored as
-100, present and negative. -/
theorem c1_counterexample :
    ((CoinGecko.ingest clkId dbEmpty (Except.ok [eNeg]) 100).db.crypto_prices.map
        (fun p => p.price_usd) = [some (-100)]) ∧
    ((-100 : ℚ) < 0) ∧
    (some ((-100 : ℚ)) ≠ (none : Option ℚ)) := by
  refine ⟨rfl, by norm_num, ?_⟩
  simp

/-- C1 (amended): the range rule v < 0 ∨ v > 1e15 ↦ absent is enforced
field-wise, without rejecting the record, by the pydantic schema validator
(used when rows are serialized through the API response models); the
ingestion path stores source values unchanged, the validator never running
there, so out-of-range values are stored as-is. -/
theorem c1_range_validation :
    (∀ x : ℚ, (x < 0 ∨ x > 10 ^ 15) → validate_numeric (some x) = none) ∧
    (∀ x : ℚ, 0 ≤ x → x ≤ 10 ^ 15 → validate_numeric (some x) = some x) ∧
    validate_numeric none = none ∧
    (∀ (ci sy : String) (nm : Option String) (p mc v ch : Option ℚ)
        (s : String),
      (CryptoPriceBase.from_attrs ci sy nm p mc v ch s).price_usd =
          validate_numeric p ∧
      (CryptoPriceBase.from_attrs ci sy nm p mc v ch s).market_cap =
          validate_numeric mc ∧
      (CryptoPriceBase.from_attrs ci sy nm p mc v ch s).volume_24h =
          validate_numeric v ∧
      (CryptoPriceBase.from_attrs ci sy nm p mc v ch s).price_change_24h =
          validate_numeric ch ∧
      (CryptoPriceBase.from_attrs ci sy nm p mc v ch s).coin_id = ci) ∧
    (∀ (e : GeckoEntity) (t : ℚ),
      (CoinGecko.normalize_data e).map (fun f => (f t).price_usd) =
         some e.current_price ∧
      (CoinGecko.normalize_data e).map (fun f => (f t).market_cap) =
         some e.market_cap ∧
      (CoinGecko.normalize_data e).map (fun f => (f t).volume_24h) =
         some e.total_volume ∧
      (CoinGecko.normalize_data e).map (fun f => (f t).price_change_24h) =
         some e.price_change_percentage_24h) := by
  refine ⟨?_, ?_, rfl, ?_, ?_⟩
  · intro x hx
    simp [validate_numeric, hx]
  · intro x h0 h1
    simp [validate_numeric]
    exact ⟨h0, h1⟩
  · intro ci sy nm p mc v ch s
    exact ⟨rfl, rfl, rfl, rfl, rfl⟩
  · intro e t
    exact ⟨rfl, rfl, rfl, rfl⟩

/-- Closed witness for c1_range_validation: the validator nulls -100 and
keeps 42000. -/
theorem c1_range_validation_witness :
    (((-100 : ℚ) < 0 ∨ (-100 : ℚ) > 10 ^ 15) ∧
      validate_numeric (some (-100)) = none) ∧
    ((0 : ℚ) ≤ 42000 ∧ (42000 : ℚ) ≤ 10 ^ 15 ∧
      validate_numeric (some 42000) = some 42000) :=
  ⟨⟨Or.inl (by norm_num), c1_range_validation.1 (-100) (Or.inl (by norm_num))⟩,
   ⟨by norm_num, by norm_num,
    c1_range_validation.2.1 42000 (by norm_num) (by norm_num)⟩⟩

/-- C4 counterexample: the claim says a record missing both id and symbol
maps to None, but both normalizers return a NormalizedPrice with empty
coin_id and symbol instead (dict .get with a default of the empty string). -/
theorem c4_counterexample :
    ((CoinGecko.normalize_data {}).map
        (fun f => ((f 0).coin_id, (f 0).symbol)) = some ("", "")) ∧
    ((CSV.normalize_data ([] : CsvRow)).map
        (fun f => ((f 0).coin_id, (f 0).symbol)) = some ("", "")) ∧
    (CoinGecko.normalize_data {}).isSome = true ∧
    (CSV.normalize_data ([] : CsvRow)).isSome = true := by
  refine ⟨by decide, by decide, rfl, rfl⟩

/-- C4 (amended): a raw entity missing the price field but carrying id and
symbol maps to a NormalizedPrice with price_usd absent, not a failure;
missing optional fields never make the normalizer raise (the CoinGecko
normalizer always returns a record, the CSV normalizer returns a record
whenever every present numeric cell converts); but an entity missing both id
and symbol still maps to a NormalizedPrice with empty coin_id and symbol —
None is returned only when the mapping itself raises (a non-numeric text in
a CSV numeric column), never for missing fields. -/
theorem c4_normalizer_missing_fields :
    (∀ e : GeckoEntity, e.id.isSome → e.symbol.isSome →
      e.current_price = none →
      (CoinGecko.normalize_data e).map (fun f => (f 0).price_usd) =
        some none) ∧
    (∀ e : GeckoEntity, (CoinGecko.normalize_data e).isSome = true) ∧
    (∀ e : GeckoEntity, e.id = none → e.symbol = none →
      (CoinGecko.normalize_data e).map
        (fun f => ((f 0).coin_id, (f 0).symbol)) = some ("", "")) ∧
    (∀ (row : CsvRow) (m v ch : Option ℚ),
      rowGetChain row ["price", "Price", "price_usd", "current_price"] =
        none →
      parse_float_cell (rowGetChain row
        ["market_cap", "Market_Cap", "marketcap"]) = Except.ok m →
      parse_float_cell (rowGetChain row
        ["volume", "Volume", "volume_24h"]) = Except.ok v →
      parse_float_cell (rowGetChain row
        ["price_change", "Price_Change", "change_24h"]) = Except.ok ch →
      (CSV.normalize_data row).map (fun f => (f 0).price_usd) =
        some none) ∧
    (∀ (row : CsvRow) (p m v ch : Option ℚ),
      rowGetChain row ["id", "coin_id", "symbol"] = none →
      rowGetChain row ["symbol", "Symbol"] = none →
      parse_float_cell (rowGetChain row
        ["price", "Price", "price_usd", "current_price"]) = Except.ok p →
      parse_float_cell (rowGetChain row
        ["market_cap", "Market_Cap", "marketcap"]) = Except.ok m →
      parse_float_cell (rowGetChain row
        ["volume", "Volume", "volume_24h"]) = Except.ok v →
      parse_float_cell (rowGetChain row
        ["price_change", "Price_Change", "change_24h"]) = Except.ok ch →
      (CSV.normalize_data row).map
        (fun f => ((f 0).coin_id, (f 0).symbol)) = some ("", "")) := by
  refine ⟨?_, ?_, ?_, ?_, ?_⟩
  · intro e hid hsym hp
    simp [CoinGecko.normalize_data, hp]
  · intro e
    rfl
  · intro e hid hsym
    simp [CoinGecko.normalize_data, hid, hsym, pyUpper]
  · intro row m v ch hp hm hv hch
    have hp2 : parse_float_cell (rowGetChain row
        ["price", "Price", "price_usd", "current_price"]) = Except.ok none := by
      rw [hp]
      rfl
    simp only [CSV.normalize_data]
    rw [hp2, hm, hv, hch]
    rfl
  · intro row p m v ch hid hsym hp hm hv hch
    simp only [CSV.normalize_data]
    rw [hid, hsym, hp, hm, hv, hch]
    rfl

/-- Closed witness for c4_normalizer_missing_fields: an entity with id and
symbol but no price, and a CSV row with only a name cell. -/
theorem c4_normalizer_missing_fields_witness :
    ((({ id := some "bitcoin", symbol := some "btc" } : GeckoEntity).id.isSome)
      ∧ (({ id := some "bitcoin", symbol := some "btc" } :
          GeckoEntity).symbol.isSome)
      ∧ (({ id := some "bitcoin", symbol := some "btc" } :
          GeckoEntity).current_price = none)
      ∧ (CoinGecko.normalize_data
          { id := some "bitcoin", symbol := some "btc" }).map
          (fun f => (f 0).price_usd) = some none) ∧
    (rowGetChain [("name", CsvVal.text "x")]
        ["price", "Price", "price_usd", "current_price"] = none ∧
      (CSV.normalize_data [("name", CsvVal.text "x")]).map
        (fun f => (f 0).price_usd) = some none) :=
  ⟨⟨rfl, rfl, rfl,
    c4_normalizer_missing_fields.1 { id := some "bitcoin", symbol := some "btc" }
      rfl rfl rfl⟩,
   ⟨rfl,
    c4_normalizer_missing_fields.2.2.2.1 [("name", CsvVal.text "x")]
      none none none rfl rfl rfl rfl⟩⟩

/-- C6 counterexample: the claim requires duration_seconds = end_time -
start_time, but on the failure path the code reads the clock once for
end_time and again, later, for the duration, so with a strictly advancing
clock the stored duration (5 - 1 = 4 would be end minus start, yet 5 is
stored) differs from end_time - start_time. -/
theorem c6_counterexample :
    ((CoinGecko.ingest clkId dbEmpty (Except.error "boom") 100).db.run_metadata.map
        (fun r => (r.start_time, r.end_time, r.duration_seconds)) =
      [(clkId.f 1, some (clkId.f 5), some (clkId.f 6 - clkId.f 1))]) ∧
    clkId.f 6 - clkId.f 1 ≠ clkId.f 5 - clkId.f 1 := by
  constructor
  · simp only [CoinGecko.ingest, CoinGecko.fetch_markets]
    rw [runIngest_error_run_metadata]
    simp [dbEmpty, clkId, startRunRecord]
  · simp only [clkId]
    norm_num

/-- C6 (amended): a RunRecord is created with status running and absent
end_time; exactly one record is appended per attempt and it is finalized by
the time the ingestor returns, normally or by exception, to a status in
{success, failed} with end_time present and (for a monotone clock) at or
after start_time; on the success path duration_seconds equals end_time -
start_time exactly, while on the failure path the duration is read from a
later clock call and is only bounded below by end_time - start_time;
earlier run records are never touched again (never re-opened). -/
theorem c6_run_record_lifecycle :
    (∀ (rid src : String) (t : ℚ),
      (startRunRecord rid src t).status = "running" ∧
      (startRunRecord rid src t).end_time = none ∧
      (startRunRecord rid src t).start_time = t) ∧
    (∀ (α : Type) (src : String) (gid : Nat → α → String)
        (nrm : α → Option (ℚ → CryptoPrice)) (c : Clk) (db : DB α)
        (entities : List α),
      ((runIngest src gid nrm c db
          (Except.ok entities)).db.run_metadata.getLast?).map
          (fun r => r.status) = some "success" ∧
      ((runIngest src gid nrm c db
          (Except.ok entities)).db.run_metadata.getLast?).map
          (fun r => r.end_time) =
        some (some (c.f (c.i + 5 + entities.length +
          entities.countP (fun a => (nrm a).isSome)))) ∧
      ((runIngest src gid nrm c db
          (Except.ok entities)).db.run_metadata.getLast?).map
          (fun r => r.duration_seconds) =
        some (some (c.f (c.i + 5 + entities.length +
          entities.countP (fun a => (nrm a).isSome)) - c.f (c.i + 1))) ∧
      ((∀ i j : Nat, i ≤ j → c.f i ≤ c.f j) →
        c.f (c.i + 1) ≤ c.f (c.i + 5 + entities.length +
          entities.countP (fun a => (nrm a).isSome)))) ∧
    (∀ (α : Type) (src : String) (gid : Nat → α → String)
        (nrm : α → Option (ℚ → CryptoPrice)) (c : Clk) (db : DB α)
        (e : String),
      ((runIngest src gid nrm c db
          (Except.error e)).db.run_metadata.getLast?).map
          (fun r => r.status) = some "failed" ∧
      ((runIngest src gid nrm c db
          (Except.error e)).db.run_metadata.getLast?).map
          (fun r => r.end_time) = some (some (c.f (c.i + 5))) ∧
      ((runIngest src gid nrm c db
          (Except.error e)).db.run_metadata.getLast?).map
          (fun r => r.duration_seconds) =
        some (some (c.f (c.i + 6) - c.f (c.i + 1))) ∧
      ((∀ i j : Nat, i ≤ j → c.f i ≤ c.f j) →
        c.f (c.i + 1) ≤ c.f (c.i + 5) ∧
        c.f (c.i + 5) - c.f (c.i + 1) ≤ c.f (c.i + 6) - c.f (c.i + 1))) ∧
    (∀ (α : Type) (src : String) (gid : Nat → α → String)
        (nrm : α → Option (ℚ → CryptoPrice)) (c : Clk) (db : DB α)
        (fetchRes : Except String (List α)),
      (runIngest src gid nrm c db fetchRes).db.run_metadata.length =
        db.run_metadata.length + 1 ∧
      (((runIngest src gid nrm c db fetchRes).db.run_metadata.getLast?).map
          (fun r => r.status) = some "success" ∨
        ((runIngest src gid nrm c db fetchRes).db.run_metadata.getLast?).map
          (fun r => r.status) = some "failed") ∧
      (∀ i : Nat, i < db.run_metadata.length →
        (runIngest src gid nrm c db fetchRes).db.run_metadata[i]? =
          db.run_metadata[i]?)) := by
  refine ⟨fun rid src t => ⟨rfl, rfl, rfl⟩, ?_, ?_, ?_⟩
  · intro α src gid nrm c db entities
    rw [runIngest_ok_run_metadata src gid nrm c db entities,
      getLast?_of_concat]
    exact ⟨rfl, rfl, rfl, fun hm => hm _ _ (by omega)⟩
  · intro α src gid nrm c db e
    rw [runIngest_error_run_metadata src gid nrm c db e, getLast?_of_concat]
    refine ⟨rfl, rfl, rfl, fun hm => ⟨hm _ _ (by omega), ?_⟩⟩
    exact sub_le_sub_right (hm _ _ (by omega)) _
  · intro α src gid nrm c db fetchRes
    cases fetchRes with
    | error e =>
        rw [runIngest_error_run_metadata src gid nrm c db e]
        refine ⟨by simp, Or.inr (by rw [getLast?_of_concat]; rfl), ?_⟩
        intro i hi
        exact List.getElem?_append_left hi
    | ok entities =>
        rw [runIngest_ok_run_metadata src gid nrm c db entities]
        refine ⟨by simp, Or.inl (by rw [getLast?_of_concat]; rfl), ?_⟩
        intro i hi
        exact List.getElem?_append_left hi

/-- Closed witness for c6_run_record_lifecycle: the monotone-clock bounds at
the identity clock on a concrete failed run, and the frame property at a
database already holding one run record. -/
theorem c6_run_record_lifecycle_witness :
    (∀ i j : Nat, i ≤ j → clkId.f i ≤ clkId.f j) ∧
    (clkId.f (clkId.i + 1) ≤ clkId.f (clkId.i + 5) ∧
      clkId.f (clkId.i + 5) - clkId.f (clkId.i + 1) ≤
        clkId.f (clkId.i + 6) - clkId.f (clkId.i + 1)) ∧
    ((0 : Nat) < (dbRm1.run_metadata.length) ∧
      (runIngest "coingecko" CoinGecko.loop_coin_id CoinGecko.normalize_data
        clkId dbRm1 (Except.error "boom")).db.run_metadata[0]? =
          dbRm1.run_metadata[0]?) := by
  have hmono : ∀ i j : Nat, i ≤ j → clkId.f i ≤ clkId.f j := by
    intro i j h
    simp only [clkId]
    exact_mod_cast h
  refine ⟨hmono, ?_, ?_⟩
  · exact (c6_run_record_lifecycle.2.2.1 GeckoEntity "coingecko"
      CoinGecko.loop_coin_id CoinGecko.normalize_data clkId dbRm1
      "boom").2.2.2 hmono
  · exact ⟨by decide,
      (c6_run_record_lifecycle.2.2.2 GeckoEntity "coingecko"
        CoinGecko.loop_coin_id CoinGecko.normalize_data clkId dbRm1
        (Except.error "boom")).2.2 0 (by decide)⟩

end Etl
